import Mathlib

/-
Shallow embedding of the sphinx-github-style extension
(src/sphinx_github_style/__init__.py and src/sphinx_github_style/meth_lexer.py).

External effects are made explicit:
  * every git subprocess invocation is an oracle field of `GitEnv`
    (`none` models a `subprocess.CalledProcessError`, `some s` models the
    stripped, decoded stdout);
  * the Python exceptions that the source can raise are the constructors of
    `PyErr`; a Python function that can raise is embedded as a function into
    `Except PyErr _`;
  * filesystem paths are lists of path components (the view `pathlib.Path`
    itself takes); `asPosix` joins them with forward slashes;
  * the interpreter state that `linkcode_resolve` introspects (loaded modules,
    attribute dictionaries, `inspect` results) is the `PyObj` oracle tree.
-/

set_option autoImplicit false

/-- The Python exceptions raised by the embedded code.  `runtimeError` carries
the command of the `subprocess.CalledProcessError` it was raised `from`, when
there is one. -/
inductive PyErr where
  | extensionError (msg : String)
  | runtimeError (msg : String) (causeCmd : Option String)
  | attributeError (msg : String)
  | keyError (key : String)
  deriving DecidableEq, Repr

/-- First-match association-list lookup: the behaviour of `dict.get` /
`dict.__getitem__` on the string-keyed dictionaries the source uses
(`none` models an absent key). -/
def lookupA {α : Type} : List (String × α) → String → Option α
  | [], _ => none
  | (k2, v) :: rest, k => if k2 = k then some v else lookupA rest k

/-- Oracle for the four git commands the source shells out to.
`headHash` is `git log -n1 --pretty=%H`; `exactTags` maps a commit hash to the
output of `git describe --exact-match --tags <hash>` when that call succeeds;
`lastTag` is `git describe --tags --abbrev=0`; `topLevel` is
`git rev-parse --show-toplevel`, as a component list. -/
structure GitEnv where
  headHash : Option String
  exactTags : List (String × String)
  lastTag : Option String
  topLevel : Option (List String)

/-- Embeds `get_head` (src/sphinx_github_style/__init__.py lines 142-163):
most recent commit hash, replaced by a tag when the commit is exactly tagged,
falling back to the literal string "master" when `git log` fails. -/
def get_head (env : GitEnv) : String :=
  match env.headHash with
  | none => "master"
  | some head =>
    match lookupA env.exactTags head with
    | some tag => tag
    | none => head

/-- Embeds `get_last_tag` (lines 166-176): most recent reachable tag, raising
`ExtensionError` when `git describe` fails. -/
def get_last_tag (env : GitEnv) : Except PyErr String :=
  match env.lastTag with
  | some tag => Except.ok tag
  | none => Except.error
      (PyErr.extensionError "``sphinx-github-style``: no tags found on current branch")

/-- Embeds `get_linkcode_revision` (lines 123-139): dispatch on the
`linkcode_blob` configuration value. -/
def get_linkcode_revision (env : GitEnv) (blob : String) : Except PyErr String :=
  if blob = "head" then Except.ok (get_head env)
  else if blob = "last_tag" then get_last_tag env
  else Except.ok blob

/-- Embeds `get_repo_dir` (lines 279-291): `git rev-parse --show-toplevel`,
raising `RuntimeError(...) from e` when the git call fails. -/
def get_repo_dir (env : GitEnv) : Except PyErr (List String) :=
  match env.topLevel with
  | some dir => Except.ok dir
  | none => Except.error
      (PyErr.runtimeError "Unable to determine the repository directory"
        (some "git rev-parse --show-toplevel"))

/-- Python truthiness of an optional string: `None` and `""` are falsy. -/
def truthy : Option String → Bool
  | none => false
  | some s => s ≠ ""

/-- The `html_context` dictionary, restricted to the three keys the source
reads; `none` models an absent key. -/
structure HtmlContext where
  github_user : Option String := none
  github_repo : Option String := none
  github_version : Option String := none

/-- `Path.as_posix()` on a component list. -/
def asPosix (path : List String) : String :=
  String.intercalate "/" path

/-- `list.dropWhile` on the slash character, used to embed `str.strip("/")`. -/
def dropSlashes (l : List Char) : List Char :=
  l.dropWhile (fun c => c = '/')

/-- Embeds Python `url.strip("/")`: removes slashes from BOTH ends. -/
def pyStrip (s : String) : String :=
  String.mk (((dropSlashes s.data).reverse |> dropSlashes).reverse)

/-- Embeds lines 188-197 of `get_linkcode_url`: the base URL is the `url`
argument, or is derived from `html_context` when both `github_user` and
`github_repo` are truthy, and otherwise `ExtensionError` is raised. -/
def resolveBaseUrl (context : Option HtmlContext) (url : Option String) :
    Except PyErr String :=
  match url with
  | some u => Except.ok u
  | none =>
    match context with
    | none => Except.error
        (PyErr.extensionError "sphinx-github-style: config value ``linkcode_url`` is missing")
    | some ctx =>
      if truthy ctx.github_user && truthy ctx.github_repo then
        Except.ok ("https://github.com/" ++ ctx.github_user.getD "" ++ "/" ++
          ctx.github_repo.getD "")
      else Except.error
        (PyErr.extensionError "sphinx-github-style: config value ``linkcode_url`` is missing")

/-- Embeds line 199 of `get_linkcode_url`:
`blob = get_linkcode_revision(blob) if blob else context.get("github_version")`.
When `blob` is falsy and `context` is `None`, the attribute access
`context.get` raises `AttributeError`. -/
def resolveBlob (env : GitEnv) (blob : Option String) (context : Option HtmlContext) :
    Except PyErr (Option String) :=
  if truthy blob then (get_linkcode_revision env (blob.getD "")).map some
  else
    match context with
    | none => Except.error
        (PyErr.attributeError "NoneType object has no attribute get")
    | some ctx => Except.ok ctx.github_version

/-- Embeds `get_linkcode_url` (lines 179-207): base-URL resolution, blob
resolution, then template assembly
`url.strip("/") + "/blob/" + blob + "/" + "{filepath}#L{linestart}-L{linestop}"`. -/
def get_linkcode_url (env : GitEnv) (blob : Option String)
    (context : Option HtmlContext) (url : Option String) : Except PyErr String :=
  match resolveBaseUrl context url with
  | Except.error e => Except.error e
  | Except.ok u =>
    match resolveBlob env blob context with
    | Except.error e => Except.error e
    | Except.ok none => Except.error
        (PyErr.extensionError "sphinx-github-style: must provide a blob or GitHub version to link to")
    | Except.ok (some b) =>
        Except.ok (pyStrip u ++ "/blob/" ++ b ++ "/" ++ "{filepath}#L{linestart}-L{linestop}")

/-- Oracle tree for the live Python objects that `linkcode_resolve`
introspects.  Per object it records: the attribute dictionary seen by
`getattr`; the getter when the object is a `property` (its `fget`); the
underlying function when it is a `functools.cached_property` (its `func`);
the `__wrapped__` chain followed by `inspect.unwrap`; the result of
`inspect.getsourcefile` as a path-component list (`none` models both a `None`
return and a raised exception, which the source collapses); and the result of
`inspect.getsourcelines` as `(lineno, len(source))` (`none` models a raise). -/
inductive PyObj where
  | mk (attrs : List (String × PyObj))
       (propFget : Option PyObj)
       (cachedPropFunc : Option PyObj)
       (wrapped : Option PyObj)
       (srcFile : Option (List String))
       (srcLines : Option (Nat × Nat))

def PyObj.attrs : PyObj → List (String × PyObj)
  | .mk a _ _ _ _ _ => a

def PyObj.propFget : PyObj → Option PyObj
  | .mk _ p _ _ _ _ => p

def PyObj.cachedPropFunc : PyObj → Option PyObj
  | .mk _ _ c _ _ _ => c

def PyObj.wrapped : PyObj → Option PyObj
  | .mk _ _ _ w _ _ => w

def PyObj.srcFile : PyObj → Option (List String)
  | .mk _ _ _ _ f _ => f

def PyObj.srcLines : PyObj → Option (Nat × Nat)
  | .mk _ _ _ _ _ l => l

/-- `getattr(o, name)`, `none` modelling a raised `AttributeError`. -/
def getattrO (o : PyObj) (name : String) : Option PyObj :=
  lookupA o.attrs name

/-- The loop `for part in fullname.split("."): obj = getattr(obj, part)`
(lines 239-244), collapsing `AttributeError` to `none`. -/
def walkAttrs : PyObj → List String → Option PyObj
  | o, [] => some o
  | o, part :: parts =>
    match getattrO o part with
    | none => none
    | some o2 => walkAttrs o2 parts

/-- `inspect.unwrap`: follow the `__wrapped__` chain to the innermost object. -/
def unwrapObj : PyObj → PyObj
  | .mk _ _ _ (some w) _ _ => unwrapObj w
  | o => o

/-- Lines 246-249: substitute `obj.fget` for a `property` and `obj.func` for a
`functools.cached_property`, otherwise keep the object. -/
def substAccessor (o : PyObj) : PyObj :=
  match o.propFget with
  | some g => g
  | none =>
    match o.cachedPropFunc with
    | some f => f
    | none => o

/-- Python `fullname.split(".")` (single-character separator, keeps empty
pieces: `"".split(".") == [""]`). -/
def splitDotsAux : List Char → List Char → List String
  | [], acc => [String.mk acc.reverse]
  | c :: cs, acc =>
    if c = '.' then String.mk acc.reverse :: splitDotsAux cs []
    else splitDotsAux cs (c :: acc)

def splitDots (s : String) : List String :=
  splitDotsAux s.data []

/-- `Path(modpath).relative_to(repo_dir)` on component lists: defined exactly
when `repo_dir` is a leading segment of `modpath` (otherwise `pathlib` raises
`ValueError`, which the source collapses to `none`). -/
def relativeTo (path root : List String) : Option (List String) :=
  if root.isPrefixOf path then some (path.drop root.length) else none

/-- One left-to-right pass of Python `str.format` specialised to the three
fields the template built by `get_linkcode_url` uses.  The first argument is
fuel (the length of the remaining text), so the definition is structural and
evaluates by kernel reduction. -/
def formatAux (fp ls le : List Char) : Nat → List Char → List Char
  | _, [] => []
  | 0, s => s
  | fuel + 1, c :: rest =>
    if ("{filepath}".data).isPrefixOf (c :: rest) then
      fp ++ formatAux fp ls le fuel (rest.drop 9)
    else if ("{linestart}".data).isPrefixOf (c :: rest) then
      ls ++ formatAux fp ls le fuel (rest.drop 10)
    else if ("{linestop}".data).isPrefixOf (c :: rest) then
      le ++ formatAux fp ls le fuel (rest.drop 9)
    else c :: formatAux fp ls le fuel rest

/-- `template.format(filepath=fp, linestart=a, linestop=b)` for templates whose
only replacement fields are those three. -/
def pyFormat (template fp : String) (a b : Nat) : String :=
  String.mk (formatAux fp.data (toString a).data (toString b).data
    template.data.length template.data)

/-- Embeds lines 235-273 of the inner `linkcode_resolve` closure, the part
after the domain/module gate: module lookup in `sys.modules`, the attribute
walk, accessor substitution, source-file and line introspection, and template
formatting.  Every failure in this part is caught and becomes `none`
("no link"). -/
def resolveLookup (linkcode_url : String) (repo_dir : List String)
    (modules : List (String × PyObj)) (modname fullname : String) :
    Option String :=
  match lookupA modules modname with
  | none => none
  | some submod =>
    match walkAttrs submod (splitDots fullname) with
    | none => none
    | some obj0 =>
      let obj := substAccessor obj0
      match (unwrapObj obj).srcFile with
      | none => none
      | some modpath =>
        match relativeTo modpath repo_dir with
        | none => none
        | some filepath =>
          match obj.srcLines with
          | none => none
          | some (lineno, nlines) =>
            some (pyFormat linkcode_url (asPosix filepath)
              lineno (lineno + nlines - 1))

/-- Embeds the inner `linkcode_resolve` closure returned by
`get_linkcode_resolve` (lines 221-273).  `modules` is the oracle for
`sys.modules`; `repo_dir` is the captured repository root.  The result is
`Except.error` for an exception escaping the function, `Except.ok none` for
the Python `None` ("no link"), `Except.ok (some url)` for a produced link.
Reading `info["module"]` and `info["fullname"]` raises `KeyError` when the
key is absent (lines 229-233); after the gate, lines 235-273 never raise. -/
def linkcode_resolve (linkcode_url : String) (repo_dir : List String)
    (modules : List (String × PyObj)) (domain : String)
    (info : List (String × String)) : Except PyErr (Option String) :=
  if domain ≠ "py" then Except.ok none
  else
    match lookupA info "module" with
    | none => Except.error (PyErr.keyError "module")
    | some modname =>
      if modname = "" then Except.ok none
      else
        match lookupA info "fullname" with
        | none => Except.error (PyErr.keyError "fullname")
        | some fullname =>
          Except.ok (resolveLookup linkcode_url repo_dir modules modname fullname)

/-- The `inspect.is*` classification of a member object, as used by
`meth_lexer.py` (function, bound method, module, class, anything else). -/
inductive PyKind where
  | function
  | method
  | module
  | cls
  | other
  deriving DecidableEq, Repr

/-- Oracle tree for the package that `TDKMethLexer.get_pkg_lexer` imports and
introspects: each value has an `inspect` kind and the name-sorted member list
that `inspect.getmembers` reports. -/
inductive PyVal where
  | mk (kind : PyKind) (members : List (String × PyVal))

def PyVal.kind : PyVal → PyKind
  | .mk k _ => k

def PyVal.members : PyVal → List (String × PyVal)
  | .mk _ m => m

/-- `inspect.getmembers(v, pred)` for a kind predicate: the members whose kind
is `k`. -/
def getmembersK (v : PyVal) (k : PyKind) : List (String × PyVal) :=
  v.members.filter (fun m => m.2.kind = k)

/-- Embeds `get_funcs` (src/sphinx_github_style/meth_lexer.py lines 23-25).
The source calls `getmembers(of, isfunction or ismethod)`; in Python the
expression `isfunction or ismethod` evaluates to the first truthy operand,
i.e. to `isfunction` alone, so only members of kind `function` are selected
and `ismethod` members are NOT.  `list(dict(members))` then keeps the names. -/
def get_funcs (obj : PyVal) : List String :=
  (getmembersK obj PyKind.function).map (fun m => m.1)

/-- Embeds `get_pkg_funcs` (lines 9-20): names of `get_funcs` of the package
root, of every module member of the package, and of every class member of
such a module, collected into a set (here: a deduplicated list). -/
def get_pkg_funcs (pkg : PyVal) : List String :=
  ((getmembersK pkg PyKind.module).foldl
    (fun acc m =>
      (getmembersK m.2 PyKind.cls).foldl
        (fun acc2 c => acc2 ++ get_funcs c.2)
        (acc ++ get_funcs m.2))
    (get_funcs pkg)).dedup

/-- Embeds `TDKMethLexer.get_pkg_lexer` (lines 38-43): import the package by
name from the interpreter oracle and set `EXTRA_KEYWORDS` to
`get_pkg_funcs(pkg)`; the result is the extra-keyword set of the registered
lexer (`none` models a failing import). -/
def get_pkg_lexer_keywords (imports : List (String × PyVal)) (pkg_name : String) :
    Option (List String) :=
  (lookupA imports pkg_name).map get_pkg_funcs

/-- A signature child node of a documentation node, as `doctree_read` sees it:
whether it is a `desc_signature`, and its attribute dictionary. -/
structure SigNode where
  isDescSignature : Bool
  fields : List (String × String)

/-- A `desc` documentation node: its domain and its child nodes. -/
structure DescNode where
  domain : String
  signodes : List SigNode

/-- The `domain_keys` table of `doctree_read` (lines 41-46), with
`domain_keys.get(domain, [])` behaviour. -/
def domainKeys (domain : String) : List String :=
  if domain = "py" then ["module", "fullname"]
  else if domain = "c" then ["names"]
  else if domain = "cpp" then ["names"]
  else if domain = "js" then ["object", "fullname"]
  else []

/-- Lines 56-61: build `info` from a signature node, replacing a missing or
falsy value by the empty string. -/
def signodeInfo (keys : List String) (s : SigNode) : List (String × String) :=
  keys.map (fun k => (k, (lookupA s.fields k).getD ""))

/-- The inner loop of `doctree_read` (lines 50-81) over the signature children
of one `desc` node, threading the per-node `uris` set; returns the URLs for
which a `[source]` reference node is attached, in attachment order.  The
`resolver` argument is the configured `linkcode_resolve` callable, `none`
modelling a Python `None` result. -/
def processSigs (resolver : String → List (String × String) → Option String)
    (domain : String) : List SigNode → List String → List String
  | [], _ => []
  | s :: rest, uris =>
    if ¬ s.isDescSignature then processSigs resolver domain rest uris
    else
      let info := signodeInfo (domainKeys domain) s
      if info.isEmpty then processSigs resolver domain rest uris
      else
        match resolver domain info with
        | none => processSigs resolver domain rest uris
        | some uri =>
          if uri = "" then processSigs resolver domain rest uris
          else if uri ∈ uris then processSigs resolver domain rest uris
          else uri :: processSigs resolver domain rest (uri :: uris)

/-- Embeds `doctree_read` (lines 48-81): for every `desc` node of the doctree,
the list of URLs that get a `[source]` link attached (the `uris` set starts
empty for each node). -/
def doctree_read (resolver : String → List (String × String) → Option String)
    (doctree : List DescNode) : List (List String) :=
  doctree.map (fun n => processSigs resolver n.domain n.signodes [])

/-- Prefix test on character lists (used to count substring occurrences). -/
def isPre : List Char → List Char → Bool
  | [], _ => true
  | _ :: _, [] => false
  | a :: as, b :: bs => if a = b then isPre as bs else false

/-- Number of positions of `s` at which `pat` occurs as a substring. -/
def countSub (pat : List Char) : List Char → Nat
  | [] => 0
  | c :: rest => (if isPre pat (c :: rest) then 1 else 0) + countSub pat rest

/-- A git oracle in which every git invocation fails (e.g. the working
directory is not inside any repository). -/
def gitEnvFail : GitEnv := ⟨none, [], none, none⟩

/-- A repository whose most recent commit `deadbeef` carries the exact tag
`v1.0`. -/
def gitEnvTagged : GitEnv := ⟨some "deadbeef", [("deadbeef", "v1.0")], none, some ["repo"]⟩

/-- A repository whose most recent commit `deadbeef` is untagged and which has
no tag reachable from the current branch. -/
def gitEnvUntagged : GitEnv := ⟨some "deadbeef", [], none, some ["repo"]⟩

/-- A function object defined at lines 10-15 (six source lines) of
`repo/pkg/mod.py`. -/
def funcObj : PyObj := PyObj.mk [] none none none (some ["repo", "pkg", "mod.py"]) (some (10, 6))

/-- A class object holding `method_name` in its attribute dictionary. -/
def classObj : PyObj :=
  PyObj.mk [("method_name", funcObj)] none none none
    (some ["repo", "pkg", "mod.py"]) (some (5, 20))

/-- A module object holding `ClassName` in its attribute dictionary. -/
def modObj : PyObj :=
  PyObj.mk [("ClassName", classObj)] none none none
    (some ["repo", "pkg", "mod.py"]) (some (1, 30))

/-- A `sys.modules` oracle in which only `pkg.mod` is loaded. -/
def sysModules0 : List (String × PyObj) := [("pkg.mod", modObj)]

/-- The URL template for base URL `https://github.com/user/repo` at revision
`v1.0`. -/
def template0 : String :=
  "https://github.com/user/repo/blob/v1.0/{filepath}#L{linestart}-L{linestop}"

/-- The repository root used by the concrete examples. -/
def repoDir0 : List String := ["repo"]

/-- A member of kind `method` (e.g. a classmethod seen on its class). -/
def methodVal : PyVal := PyVal.mk PyKind.method []

/-- A member of kind `function`. -/
def functionVal : PyVal := PyVal.mk PyKind.function []

/-- A class owning a method member `cm` and a function member `f`. -/
def classVal : PyVal := PyVal.mk PyKind.cls [("cm", methodVal), ("f", functionVal)]

/-- A module owning the class `C`. -/
def moduleVal : PyVal := PyVal.mk PyKind.module [("C", classVal)]

/-- A package owning the module `mod1` and a root-level function `top_f`. -/
def pkgVal : PyVal := PyVal.mk PyKind.module [("mod1", moduleVal), ("top_f", functionVal)]

/-- An interpreter oracle in which `mypkg` imports to `pkgVal`. -/
def imports0 : List (String × PyVal) := [("mypkg", pkgVal)]

/-- Discriminator for results that raise the `ExtensionError` class, the
error class this extension uses for fatal configuration errors. -/
def raisesExtensionError {α : Type} : Except PyErr α → Bool
  | Except.error (PyErr.extensionError _) => true
  | _ => false

/-- Claim C2: in "head" mode the revision is the tag name when the most
recent commit is exactly tagged, the full commit hash when it is untagged,
and the literal string "master", without raising, when the git call for the
commit hash fails. -/
theorem head_mode_revision (env : GitEnv) :
    (∀ h t, env.headHash = some h → lookupA env.exactTags h = some t →
      get_linkcode_revision env "head" = Except.ok t) ∧
    (∀ h, env.headHash = some h → lookupA env.exactTags h = none →
      get_linkcode_revision env "head" = Except.ok h) ∧
    (env.headHash = none → get_linkcode_revision env "head" = Except.ok "master") := by
  refine ⟨?_, ?_, ?_⟩ <;> intros <;> simp_all [get_linkcode_revision, get_head]

/-- Witness for C2 at three concrete git oracles: a tagged head commit, an
untagged head commit, and a failing git invocation. -/
theorem head_mode_revision_witness :
    get_linkcode_revision gitEnvTagged "head" = Except.ok "v1.0" ∧
    get_linkcode_revision gitEnvUntagged "head" = Except.ok "deadbeef" ∧
    get_linkcode_revision gitEnvFail "head" = Except.ok "master" :=
  ⟨(head_mode_revision gitEnvTagged).1 "deadbeef" "v1.0" rfl rfl,
   (head_mode_revision gitEnvUntagged).2.1 "deadbeef" rfl rfl,
   (head_mode_revision gitEnvFail).2.2 rfl⟩

/-- Claim C6: in "last_tag" mode, when git reports no reachable tag, the
resolution fails with the `ExtensionError` used for fatal configuration
errors (and does not fall back to any default revision string). -/
theorem last_tag_mode_error (env : GitEnv) (h : env.lastTag = none) :
    get_linkcode_revision env "last_tag" =
      Except.error (PyErr.extensionError
        "``sphinx-github-style``: no tags found on current branch") := by
  simp [get_linkcode_revision, get_last_tag, h]

/-- Witness for C6 at a git oracle with no reachable tag. -/
theorem last_tag_mode_error_witness :
    get_linkcode_revision gitEnvFail "last_tag" =
      Except.error (PyErr.extensionError
        "``sphinx-github-style``: no tags found on current branch") :=
  last_tag_mode_error gitEnvFail rfl

/-- Counterexample to claim C7: when `git rev-parse --show-toplevel` fails,
`get_repo_dir` raises `RuntimeError` (wrapping the failed command), which is
not the `ExtensionError` class used for configuration errors. -/
theorem get_repo_dir_counterexample :
    get_repo_dir gitEnvFail =
      Except.error (PyErr.runtimeError "Unable to determine the repository directory"
        (some "git rev-parse --show-toplevel")) ∧
    raisesExtensionError (get_repo_dir gitEnvFail) = false :=
  ⟨rfl, rfl⟩

/-- Claim C7 (amended): `get_repo_dir` returns the git top-level directory
when the git call succeeds, and when the git invocation fails it raises a
`RuntimeError` wrapping the underlying failed command — a build-aborting
error, but not the `ExtensionError` configuration-error class. -/
theorem get_repo_dir_spec (env : GitEnv) :
    (∀ d, env.topLevel = some d → get_repo_dir env = Except.ok d) ∧
    (env.topLevel = none →
      get_repo_dir env = Except.error
        (PyErr.runtimeError "Unable to determine the repository directory"
          (some "git rev-parse --show-toplevel"))) := by
  refine ⟨?_, ?_⟩ <;> intros <;> simp_all [get_repo_dir]

/-- Witness for the amended C7 at a succeeding and at a failing git oracle. -/
theorem get_repo_dir_spec_witness :
    get_repo_dir gitEnvTagged = Except.ok ["repo"] ∧
    get_repo_dir gitEnvFail = Except.error
      (PyErr.runtimeError "Unable to determine the repository directory"
        (some "git rev-parse --show-toplevel")) :=
  ⟨(get_repo_dir_spec gitEnvTagged).1 ["repo"] rfl,
   (get_repo_dir_spec gitEnvFail).2 rfl⟩

/-- Claim C10: the default resolver reads `info["fullname"]` unconditionally
once the domain gate passes: with domain "py" and a present non-empty module
but no "fullname" key it raises `KeyError`; for any non-"py" domain the gate
short-circuits and `None` is returned even when "module" is absent too. -/
theorem resolve_fullname_keyerror (lurl : String) (rd : List String)
    (mods : List (String × PyObj)) :
    (∀ domain info, domain ≠ "py" →
      linkcode_resolve lurl rd mods domain info = Except.ok none) ∧
    (∀ info m, lookupA info "module" = some m → m ≠ "" →
      lookupA info "fullname" = none →
      linkcode_resolve lurl rd mods "py" info = Except.error (PyErr.keyError "fullname")) := by
  constructor
  · intro domain info h
    simp [linkcode_resolve, h]
  · intro info m hm hne hf
    simp [linkcode_resolve, hm, hne, hf]

/-- Witness for C10: a non-"py" domain with an empty qualifier dictionary
yields no link; domain "py" with only a module key raises `KeyError`. -/
theorem resolve_fullname_keyerror_witness :
    linkcode_resolve template0 repoDir0 sysModules0 "js" [] = Except.ok none ∧
    linkcode_resolve template0 repoDir0 sysModules0 "py" [("module", "pkg.mod")] =
      Except.error (PyErr.keyError "fullname") :=
  ⟨(resolve_fullname_keyerror template0 repoDir0 sysModules0).1 "js" [] (by decide),
   (resolve_fullname_keyerror template0 repoDir0 sysModules0).2
     [("module", "pkg.mod")] "pkg.mod" rfl (by decide) rfl⟩

/-- Counterexample to claim C5: with a supplied base URL, a falsy blob and NO
context dictionary at all, `get_linkcode_url` raises `AttributeError` (from
`None.get`), not the `ExtensionError` used for configuration errors. -/
theorem get_linkcode_url_counterexample_c5 :
    get_linkcode_url gitEnvFail none none (some "https://github.com/u/r") =
      Except.error (PyErr.attributeError "NoneType object has no attribute get") ∧
    raisesExtensionError
      (get_linkcode_url gitEnvFail none none (some "https://github.com/u/r")) = false :=
  ⟨rfl, rfl⟩

/-- Claim C5 (amended): for every supplied base URL, if the blob argument is
absent or falsy then: when a context dictionary is supplied but has no
`github_version`, the operation fails with the configuration
`ExtensionError` and no template is returned; when no context dictionary is
supplied at all, it instead fails with an `AttributeError` (an unhandled
crash), and still no template is returned. -/
theorem get_linkcode_url_no_blob (env : GitEnv) (blob : Option String)
    (ctx : HtmlContext) (url : String)
    (hb : truthy blob = false) (hv : ctx.github_version = none) :
    get_linkcode_url env blob (some ctx) (some url) =
      Except.error (PyErr.extensionError
        "sphinx-github-style: must provide a blob or GitHub version to link to") ∧
    get_linkcode_url env blob none (some url) =
      Except.error (PyErr.attributeError "NoneType object has no attribute get") := by
  constructor
  · simp [get_linkcode_url, resolveBaseUrl, resolveBlob, hb, hv]
  · simp [get_linkcode_url, resolveBaseUrl, resolveBlob, hb]

/-- Witness for the amended C5 with no blob and an empty context dictionary. -/
theorem get_linkcode_url_no_blob_witness :
    get_linkcode_url gitEnvFail none (some {}) (some "https://github.com/u/r") =
      Except.error (PyErr.extensionError
        "sphinx-github-style: must provide a blob or GitHub version to link to") ∧
    get_linkcode_url gitEnvFail none none (some "https://github.com/u/r") =
      Except.error (PyErr.attributeError "NoneType object has no attribute get") :=
  get_linkcode_url_no_blob gitEnvFail none {} "https://github.com/u/r" rfl rfl

/-- Claim C3: once "module" (non-empty) and "fullname" are both present, the
default resolver never raises; an unloaded root module, a failing attribute
segment, a missing source file, a file outside the repository root, and
failing line introspection each yield `None` ("no link") instead of an
exception. -/
theorem resolve_never_raises (lurl : String) (rd : List String)
    (mods : List (String × PyObj)) (info : List (String × String)) (m f : String)
    (hm : lookupA info "module" = some m) (hne : m ≠ "")
    (hf : lookupA info "fullname" = some f) :
    (∃ r, linkcode_resolve lurl rd mods "py" info = Except.ok r) ∧
    (lookupA mods m = none →
      linkcode_resolve lurl rd mods "py" info = Except.ok none) ∧
    (∀ sm, lookupA mods m = some sm → walkAttrs sm (splitDots f) = none →
      linkcode_resolve lurl rd mods "py" info = Except.ok none) ∧
    (∀ sm obj, lookupA mods m = some sm → walkAttrs sm (splitDots f) = some obj →
      (unwrapObj (substAccessor obj)).srcFile = none →
      linkcode_resolve lurl rd mods "py" info = Except.ok none) ∧
    (∀ sm obj p, lookupA mods m = some sm → walkAttrs sm (splitDots f) = some obj →
      (unwrapObj (substAccessor obj)).srcFile = some p → relativeTo p rd = none →
      linkcode_resolve lurl rd mods "py" info = Except.ok none) ∧
    (∀ sm obj p rel, lookupA mods m = some sm →
      walkAttrs sm (splitDots f) = some obj →
      (unwrapObj (substAccessor obj)).srcFile = some p →
      relativeTo p rd = some rel → (substAccessor obj).srcLines = none →
      linkcode_resolve lurl rd mods "py" info = Except.ok none) := by
  have hgate : linkcode_resolve lurl rd mods "py" info =
      Except.ok (resolveLookup lurl rd mods m f) := by
    simp [linkcode_resolve, hm, hne, hf]
  refine ⟨⟨resolveLookup lurl rd mods m f, hgate⟩, ?_, ?_, ?_, ?_, ?_⟩
  · intro h1
    rw [hgate]
    simp [resolveLookup, h1]
  · intro sm h1 h2
    rw [hgate]
    simp [resolveLookup, h1, h2]
  · intro sm obj h1 h2 h3
    rw [hgate]
    simp [resolveLookup, h1, h2, h3]
  · intro sm obj p h1 h2 h3 h4
    rw [hgate]
    simp [resolveLookup, h1, h2, h3, h4]
  · intro sm obj p rel h1 h2 h3 h4 h5
    rw [hgate]
    simp [resolveLookup, h1, h2, h3, h4, h5]

/-- Witness for C3 at a concrete qualifier dictionary whose root module is
not loaded. -/
theorem resolve_never_raises_witness :
    (∃ r, linkcode_resolve template0 repoDir0 sysModules0 "py"
      [("module", "other.mod"), ("fullname", "f")] = Except.ok r) ∧
    (lookupA sysModules0 "other.mod" = none →
      linkcode_resolve template0 repoDir0 sysModules0 "py"
        [("module", "other.mod"), ("fullname", "f")] = Except.ok none) ∧
    (∀ sm, lookupA sysModules0 "other.mod" = some sm →
      walkAttrs sm (splitDots "f") = none →
      linkcode_resolve template0 repoDir0 sysModules0 "py"
        [("module", "other.mod"), ("fullname", "f")] = Except.ok none) ∧
    (∀ sm obj, lookupA sysModules0 "other.mod" = some sm →
      walkAttrs sm (splitDots "f") = some obj →
      (unwrapObj (substAccessor obj)).srcFile = none →
      linkcode_resolve template0 repoDir0 sysModules0 "py"
        [("module", "other.mod"), ("fullname", "f")] = Except.ok none) ∧
    (∀ sm obj p, lookupA sysModules0 "other.mod" = some sm →
      walkAttrs sm (splitDots "f") = some obj →
      (unwrapObj (substAccessor obj)).srcFile = some p →
      relativeTo p repoDir0 = none →
      linkcode_resolve template0 repoDir0 sysModules0 "py"
        [("module", "other.mod"), ("fullname", "f")] = Except.ok none) ∧
    (∀ sm obj p rel, lookupA sysModules0 "other.mod" = some sm →
      walkAttrs sm (splitDots "f") = some obj →
      (unwrapObj (substAccessor obj)).srcFile = some p →
      relativeTo p repoDir0 = some rel → (substAccessor obj).srcLines = none →
      linkcode_resolve template0 repoDir0 sysModules0 "py"
        [("module", "other.mod"), ("fullname", "f")] = Except.ok none) :=
  resolve_never_raises template0 repoDir0 sysModules0
    [("module", "other.mod"), ("fullname", "f")] "other.mod" "f"
    rfl (by decide) rfl

/-- Claim C1: with domain "py", a loaded module, an attribute walk on the
dotted fullname reaching a plain object (no property, cached-property or
wrapper indirection) whose source file lies inside the repository root and
whose source starts at line `L` with `n` lines, the resolver returns the
template with the forward-slash relative path, `linestart = L` and
`linestop = L + n - 1` substituted. -/
theorem resolve_success (lurl : String) (rd : List String)
    (mods : List (String × PyObj)) (info : List (String × String)) (m f : String)
    (sm obj : PyObj) (p rel : List String) (L n : Nat)
    (hm : lookupA info "module" = some m) (hne : m ≠ "")
    (hf : lookupA info "fullname" = some f)
    (hmods : lookupA mods m = some sm)
    (hwalk : walkAttrs sm (splitDots f) = some obj)
    (hprop : obj.propFget = none) (hcached : obj.cachedPropFunc = none)
    (hwrap : obj.wrapped = none)
    (hsrc : obj.srcFile = some p)
    (hrel : relativeTo p rd = some rel)
    (hlines : obj.srcLines = some (L, n)) :
    linkcode_resolve lurl rd mods "py" info =
      Except.ok (some (pyFormat lurl (asPosix rel) L (L + n - 1))) := by
  have hsub : substAccessor obj = obj := by
    unfold substAccessor
    rw [hprop, hcached]
  have hunwrap : unwrapObj obj = obj := by
    cases obj with
    | mk a pr c w sf sl =>
      cases w with
      | none => rfl
      | some w0 => simp [PyObj.wrapped] at hwrap
  simp [linkcode_resolve, hm, hne, hf, resolveLookup, hmods, hwalk, hsub,
    hunwrap, hsrc, hrel, hlines]

/-- Witness for C1: `pkg.mod.ClassName.method_name` defined at lines 10-15 of
`pkg/mod.py` inside the repository root yields
`https://github.com/user/repo/blob/v1.0/pkg/mod.py#L10-L15`. -/
theorem resolve_success_witness :
    linkcode_resolve template0 repoDir0 sysModules0 "py"
      [("module", "pkg.mod"), ("fullname", "ClassName.method_name")] =
      Except.ok (some "https://github.com/user/repo/blob/v1.0/pkg/mod.py#L10-L15") :=
  resolve_success template0 repoDir0 sysModules0
    [("module", "pkg.mod"), ("fullname", "ClassName.method_name")]
    "pkg.mod" "ClassName.method_name" modObj funcObj
    ["repo", "pkg", "mod.py"] ["pkg", "mod.py"] 10 6
    rfl (by decide) rfl rfl rfl rfl rfl rfl rfl rfl rfl

/-- Invariant of the signature loop of `doctree_read`: the attached URLs are
pairwise distinct, avoid the incoming `uris` set, and are never empty. -/
theorem processSigs_spec (resolver : String → List (String × String) → Option String)
    (domain : String) (sigs : List SigNode) :
    ∀ uris, (processSigs resolver domain sigs uris).Nodup ∧
      ∀ u ∈ processSigs resolver domain sigs uris, u ∉ uris ∧ u ≠ "" := by
  induction sigs with
  | nil =>
    intro uris
    simp [processSigs]
  | cons s rest ih =>
    intro uris
    simp only [processSigs]
    split
    · exact ih uris
    · split
      · exact ih uris
      · split
        · exact ih uris
        · rename_i uri hres
          split
          · exact ih uris
          · rename_i hne
            split
            · exact ih uris
            · rename_i hmem
              obtain ⟨hnd, hprop⟩ := ih (uri :: uris)
              refine ⟨List.nodup_cons.mpr ⟨?_, hnd⟩, ?_⟩
              · intro hin
                exact (hprop uri hin).1 (List.mem_cons_self uri uris)
              · intro u hu
                rcases List.mem_cons.mp hu with h | h
                · subst h
                  exact ⟨hmem, hne⟩
                · have h2 := hprop u h
                  exact ⟨fun hc => h2.1 (List.mem_cons_of_mem _ hc), h2.2⟩

/-- Claim C8: per documentation node, at most one `[source]` link is attached
per distinct URL (the attached URL list of every node has no duplicates), and
an empty or absent URL never produces a link. -/
theorem doctree_read_unique_links
    (resolver : String → List (String × String) → Option String)
    (doctree : List DescNode) :
    List.Forall (fun links => links.Nodup ∧ "" ∉ links)
      (doctree_read resolver doctree) := by
  rw [List.forall_iff_forall_mem]
  intro links hmem
  obtain ⟨n, hn, rfl⟩ := List.mem_map.mp hmem
  obtain ⟨h1, h2⟩ := processSigs_spec resolver n.domain n.signodes []
  exact ⟨h1, fun hc => (h2 "" hc).2 rfl⟩

/-- Claim C9 (code bug exhibit): `get_funcs` filters members with the Python
expression `isfunction or ismethod`, which evaluates to `isfunction` alone,
so a member of kind `method` (e.g. the classmethod `cm` on class `C` of
module `mod1`) is missing from the registered lexer extra-keyword set, while
function members (`top_f` at package root, `f` on the class) are included. -/
theorem meth_lexer_missing_method :
    get_pkg_lexer_keywords imports0 "mypkg" = some ["top_f", "f"] ∧
    "top_f" ∈ (get_pkg_lexer_keywords imports0 "mypkg").getD [] ∧
    "f" ∈ (get_pkg_lexer_keywords imports0 "mypkg").getD [] ∧
    "cm" ∉ (get_pkg_lexer_keywords imports0 "mypkg").getD [] := by
  refine ⟨rfl, by decide, by decide, by decide⟩

/-- Appending strings appends their character lists. -/
theorem dataAppend (s t : String) : (s ++ t).data = s.data ++ t.data := by
  cases s
  cases t
  rfl

/-- A prefix of `l` is still a prefix after extending `l` on the right. -/
theorem isPre_append_left (pat l b : List Char) (h : isPre pat l = true) :
    isPre pat (l ++ b) = true := by
  induction pat generalizing l with
  | nil => rfl
  | cons a as ih =>
    cases l with
    | nil => simp [isPre] at h
    | cons c cs =>
      simp only [isPre, List.cons_append] at h ⊢
      by_cases hac : a = c
      · rw [if_pos hac] at h ⊢
        exact ih cs h
      · rw [if_neg hac] at h
        exact absurd h (by simp)

/-- A slash-free pattern is a prefix of `a ++ '/' :: b` exactly when it is a
prefix of `a`. -/
theorem isPre_sep (pat : List Char) (hsep : '/' ∉ pat) (a b : List Char) :
    isPre pat (a ++ '/' :: b) = isPre pat a := by
  induction pat generalizing a with
  | nil => rfl
  | cons p ps ih =>
    have hp : p ≠ '/' := fun h => hsep (h ▸ List.mem_cons_self p ps)
    have hps : '/' ∉ ps := fun h => hsep (List.mem_cons_of_mem p h)
    cases a with
    | nil => simp [isPre, hp]
    | cons c cs =>
      simp only [List.cons_append, isPre]
      by_cases hpc : p = c
      · rw [if_pos hpc, if_pos hpc]
        exact ih hps cs
      · rw [if_neg hpc, if_neg hpc]

/-- Occurrences of a nonempty slash-free pattern split across a slash. -/
theorem countSub_sep (pat : List Char) (hne : pat ≠ []) (hsep : '/' ∉ pat)
    (a b : List Char) :
    countSub pat (a ++ '/' :: b) = countSub pat a + countSub pat b := by
  induction a with
  | nil =>
    simp only [List.nil_append, countSub]
    have hfalse : isPre pat ('/' :: b) = false := by
      cases pat with
      | nil => exact absurd rfl hne
      | cons p ps =>
        have hp : p ≠ '/' := fun h => hsep (h ▸ List.mem_cons_self p ps)
        simp [isPre, hp]
    rw [hfalse]
    simp
  | cons c cs ih =>
    have hiso := isPre_sep pat hsep (c :: cs) b
    show (if isPre pat ((c :: cs) ++ '/' :: b) = true then 1 else 0) +
        countSub pat (cs ++ '/' :: b) =
      ((if isPre pat (c :: cs) = true then 1 else 0) + countSub pat cs) +
        countSub pat b
    rw [hiso, ih]
    omega

/-- Extending on the right cannot lose occurrences. -/
theorem countSub_le_append_right (pat a b : List Char) :
    countSub pat a ≤ countSub pat (a ++ b) := by
  induction a with
  | nil => simp [countSub]
  | cons c cs ih =>
    simp only [List.cons_append, countSub]
    have hind : (if isPre pat (c :: cs) then 1 else 0) ≤
        (if isPre pat (c :: (cs ++ b)) then 1 else 0) := by
      by_cases h : isPre pat (c :: cs)
      · rw [if_pos h, if_pos]
        exact isPre_append_left pat (c :: cs) b h
      · simp [h]
    exact Nat.add_le_add hind ih

/-- Extending on the left cannot lose occurrences. -/
theorem countSub_le_append_left (pat a b : List Char) :
    countSub pat b ≤ countSub pat (a ++ b) := by
  induction a with
  | nil => simp
  | cons c cs ih =>
    simp only [List.cons_append, countSub]
    exact le_trans ih (Nat.le_add_left _ _)

/-- `dropWhile` removes an initial segment: the original list is some prefix
followed by the remainder. -/
theorem exists_take_dropWhile (p : Char → Bool) (l : List Char) :
    ∃ t, l = t ++ l.dropWhile p := by
  induction l with
  | nil => exact ⟨[], rfl⟩
  | cons c cs ih =>
    by_cases h : p c
    · obtain ⟨t, ht⟩ := ih
      refine ⟨c :: t, ?_⟩
      simp only [List.dropWhile_cons, h, if_pos, List.cons_append]
      exact congrArg (c :: ·) ht
    · refine ⟨[], ?_⟩
      simp [List.dropWhile_cons, h]

/-- Specialisation of `exists_take_dropWhile` to `dropSlashes`. -/
theorem exists_take_dropSlashes (l : List Char) : ∃ t, l = t ++ dropSlashes l :=
  exists_take_dropWhile (fun c => decide (c = '/')) l

/-- Stripping slashes from both ends cannot create occurrences of a pattern. -/
theorem countSub_pyStrip_le (pat : List Char) (s : String) :
    countSub pat (pyStrip s).data ≤ countSub pat s.data := by
  obtain ⟨t1, ht1⟩ := exists_take_dropSlashes s.data
  obtain ⟨t2, ht2⟩ := exists_take_dropSlashes (dropSlashes s.data).reverse
  have hA : (pyStrip s).data =
      (dropSlashes ((dropSlashes s.data).reverse)).reverse := rfl
  have hd1eq : dropSlashes s.data =
      (dropSlashes ((dropSlashes s.data).reverse)).reverse ++ t2.reverse := by
    have hrev := congrArg List.reverse ht2
    simpa [List.reverse_append] using hrev
  calc countSub pat (pyStrip s).data
      = countSub pat (dropSlashes ((dropSlashes s.data).reverse)).reverse := by rw [hA]
    _ ≤ countSub pat ((dropSlashes ((dropSlashes s.data).reverse)).reverse ++ t2.reverse) :=
        countSub_le_append_right _ _ _
    _ = countSub pat (dropSlashes s.data) := by rw [← hd1eq]
    _ ≤ countSub pat (t1 ++ dropSlashes s.data) := countSub_le_append_left _ _ _
    _ = countSub pat s.data := by rw [← ht1]

/-- Counterexample to claim C4: for base URL "/x" (which contains no
substitution-slot text) and the determined revision "v{filepath}", the code
strips the LEADING slash of the base URL as well (so the result does not
start with the trailing-stripped base URL), and the slot text {filepath}
occurs twice in the produced template, not exactly once. -/
theorem get_linkcode_url_counterexample_c4 :
    get_linkcode_url gitEnvFail (some "v{filepath}") none (some "/x") =
      Except.ok "x/blob/v{filepath}/{filepath}#L{linestart}-L{linestop}" ∧
    countSub "{filepath}".data
      "x/blob/v{filepath}/{filepath}#L{linestart}-L{linestop}".data = 2 ∧
    "x/blob/v{filepath}/{filepath}#L{linestart}-L{linestop}" ≠
      "/x/blob/v{filepath}/{filepath}#L{linestart}-L{linestop}" :=
  ⟨rfl, by decide, by decide⟩

/-- Claim C4 (amended): for every base URL containing none of the
substitution-slot texts and every determined revision `r` that also contains
none of them, the produced template is the base URL with leading AND
trailing slashes stripped, then `/blob/r/`, then the fixed suffix
`{filepath}#L{linestart}-L{linestop}`, and it contains exactly one
occurrence of each of the three substitution slots. -/
theorem get_linkcode_url_template (env : GitEnv) (url blob r : String)
    (ctx : Option HtmlContext)
    (hb : blob ≠ "")
    (hrev : get_linkcode_revision env blob = Except.ok r)
    (hu1 : countSub "{filepath}".data url.data = 0)
    (hu2 : countSub "{linestart}".data url.data = 0)
    (hu3 : countSub "{linestop}".data url.data = 0)
    (hr1 : countSub "{filepath}".data r.data = 0)
    (hr2 : countSub "{linestart}".data r.data = 0)
    (hr3 : countSub "{linestop}".data r.data = 0) :
    get_linkcode_url env (some blob) ctx (some url) =
      Except.ok (pyStrip url ++ "/blob/" ++ r ++ "/" ++
        "{filepath}#L{linestart}-L{linestop}") ∧
    countSub "{filepath}".data (pyStrip url ++ "/blob/" ++ r ++ "/" ++
      "{filepath}#L{linestart}-L{linestop}").data = 1 ∧
    countSub "{linestart}".data (pyStrip url ++ "/blob/" ++ r ++ "/" ++
      "{filepath}#L{linestart}-L{linestop}").data = 1 ∧
    countSub "{linestop}".data (pyStrip url ++ "/blob/" ++ r ++ "/" ++
      "{filepath}#L{linestart}-L{linestop}").data = 1 := by
  have hmain : get_linkcode_url env (some blob) ctx (some url) =
      Except.ok (pyStrip url ++ "/blob/" ++ r ++ "/" ++
        "{filepath}#L{linestart}-L{linestop}") := by
    simp [get_linkcode_url, resolveBaseUrl, resolveBlob, truthy, hb, hrev,
      Except.map]
  have key : ∀ pat : List Char, pat ≠ [] → '/' ∉ pat →
      countSub pat url.data = 0 → countSub pat r.data = 0 →
      countSub pat "blob".data = 0 →
      countSub pat (pyStrip url ++ "/blob/" ++ r ++ "/" ++
        "{filepath}#L{linestart}-L{linestop}").data =
        countSub pat "{filepath}#L{linestart}-L{linestop}".data := by
    intro pat hne hsep h0 hr0 hblob
    have hshape : (pyStrip url ++ "/blob/" ++ r ++ "/" ++
        "{filepath}#L{linestart}-L{linestop}").data =
        (pyStrip url).data ++ '/' :: ("blob".data ++ '/' ::
          (r.data ++ '/' :: "{filepath}#L{linestart}-L{linestop}".data)) := by
      simp only [dataAppend, List.append_assoc]
      rfl
    have hA : countSub pat (pyStrip url).data = 0 :=
      Nat.le_zero.mp (h0 ▸ countSub_pyStrip_le pat url)
    rw [hshape, countSub_sep pat hne hsep, countSub_sep pat hne hsep,
      countSub_sep pat hne hsep, hA, hblob, hr0]
    omega
  refine ⟨hmain, ?_, ?_, ?_⟩
  · rw [key "{filepath}".data (by decide) (by decide) hu1 hr1 (by decide)]
    decide
  · rw [key "{linestart}".data (by decide) (by decide) hu2 hr2 (by decide)]
    decide
  · rw [key "{linestop}".data (by decide) (by decide) hu3 hr3 (by decide)]
    decide

/-- Witness for the amended C4 at base URL `https://github.com/user/repo`
with explicit blob `v1.0`. -/
theorem get_linkcode_url_template_witness :
    get_linkcode_url gitEnvFail (some "v1.0") none
      (some "https://github.com/user/repo") =
      Except.ok (pyStrip "https://github.com/user/repo" ++ "/blob/" ++ "v1.0" ++
        "/" ++ "{filepath}#L{linestart}-L{linestop}") ∧
    countSub "{filepath}".data (pyStrip "https://github.com/user/repo" ++
      "/blob/" ++ "v1.0" ++ "/" ++ "{filepath}#L{linestart}-L{linestop}").data = 1 ∧
    countSub "{linestart}".data (pyStrip "https://github.com/user/repo" ++
      "/blob/" ++ "v1.0" ++ "/" ++ "{filepath}#L{linestart}-L{linestop}").data = 1 ∧
    countSub "{linestop}".data (pyStrip "https://github.com/user/repo" ++
      "/blob/" ++ "v1.0" ++ "/" ++ "{filepath}#L{linestart}-L{linestop}").data = 1 :=
  get_linkcode_url_template gitEnvFail "https://github.com/user/repo" "v1.0" "v1.0"
    none (by decide) rfl (by decide) (by decide) (by decide) (by decide) (by decide)
    (by decide)
